import Mathlib

/-
  Verification development for the loan-verification OCR service.
  The definitions below are shallow embeddings of the Python code in
  app/services/gemini_service.py and app/routers/verification.py:
  strings are Lean strings, Python floats are modelled as rationals,
  Python dict lookups with possibly absent or null values are modelled
  by explicit option-like types.
-/

namespace LoanVerify

/-! ## String utilities (Python `lower`, `strip`, `split`, `in`, `replace`) -/

/-- Python `str.lower()` restricted to the character-wise case mapping. -/
def lowerStr (s : String) : String := String.mk (s.data.map Char.toLower)

/-- Whitespace characters recognised by Python `strip()`/`split()` for our inputs. -/
def isWs (c : Char) : Bool := c = ' ' || c = '\t' || c = '\n' || c = '\r'

/-- Remove leading and trailing whitespace from a character list. -/
def trimChars (l : List Char) : List Char :=
  ((l.dropWhile isWs).reverse.dropWhile isWs).reverse

/-- Python `str.strip()`. -/
def trimStr (s : String) : String := String.mk (trimChars s.data)

/-- The normalisation `s.lower().strip()` used throughout the service. -/
def normStr (s : String) : String := trimStr (lowerStr s)

/-- Helper for `splitWs`: accumulates the current word (reversed). -/
def splitWsAux : List Char → List Char → List String
  | [], [] => []
  | [], acc => [String.mk acc.reverse]
  | c :: rest, acc =>
    if isWs c then
      match acc with
      | [] => splitWsAux rest []
      | _ :: _ => String.mk acc.reverse :: splitWsAux rest []
    else splitWsAux rest (c :: acc)

/-- Python `str.split()` with no argument: split on whitespace runs, no empty tokens. -/
def splitWs (s : String) : List String := splitWsAux s.data []

/-- Does the character list start with the given pattern? -/
def charsStartWith : List Char → List Char → Bool
  | _, [] => true
  | [], _ :: _ => false
  | a :: as, b :: bs => a = b && charsStartWith as bs

/-- Python `pat in hay` on strings, over character lists. -/
def charsHave : List Char → List Char → Bool
  | [], pat => pat.isEmpty
  | hay@(_ :: rest), pat => charsStartWith hay pat || charsHave rest pat

/-- Python substring test `pat in hay`. -/
def strHas (hay pat : String) : Bool := charsHave hay.data pat.data

/-- Fuelled worker for `removePat`; the fuel is the length of the haystack. -/
def removePatAux : Nat → List Char → List Char → List Char
  | 0, hay, _ => hay
  | _ + 1, [], _ => []
  | fuel + 1, hay@(c :: rest), pat =>
    if (!pat.isEmpty) && charsStartWith hay pat then
      removePatAux fuel (hay.drop pat.length) pat
    else c :: removePatAux fuel rest pat

/-- Python `hay.replace(pat, "")`: remove every (left-to-right, non-overlapping)
occurrence of `pat`. -/
def removePat (hay pat : List Char) : List Char := removePatAux hay.length hay pat

/-! ## Similarity scorer (`_calculate_name_similarity`) -/

/-- The token set `set(name.split())` of a (normalised) string. -/
def tokSet (s : String) : Finset String := (splitWs s).toFinset

/-- Jaccard similarity over the two token sets, as in the source:
`intersection / union if union > 0 else 0.0`. -/
def jaccardQ (A B : Finset String) : ℚ :=
  if 0 < (A ∪ B).card then ((A ∩ B).card : ℚ) / ((A ∪ B).card : ℚ) else 0

/-- Word-order similarity from the source: order the token lists into
`shorter`/`longer` by length, then count how many tokens of the shorter list
occur in the longer one, divided by the length of the shorter list. -/
def containQ (l1 l2 : List String) : ℚ :=
  let sl := if l1.length ≤ l2.length then l1 else l2
  let lg := if l1.length ≤ l2.length then l2 else l1
  if sl.isEmpty then 0
  else ((sl.filter (fun w => decide (w ∈ lg))).length : ℚ) / (sl.length : ℚ)

/-- `_calculate_name_similarity`: guard on Python-falsy (empty) inputs, normalise,
short-circuit on equality, then combine Jaccard and word-order similarity as
`0.6 * jaccard + 0.4 * word_order`, clamped by `min (· , 1)`. -/
def nameSimilarity (name1 name2 : String) : ℚ :=
  if name1 = "" ∨ name2 = "" then 0
  else
    let n1 := normStr name1
    let n2 := normStr name2
    if n1 = n2 then 1
    else
      if tokSet n1 = ∅ ∨ tokSet n2 = ∅ then 0
      else
        min (jaccardQ (tokSet n1) (tokSet n2) * (3 / 5)
              + containQ (splitWs n1) (splitWs n2) * (2 / 5)) 1

/-! ## Employer similarity (`_calculate_employer_similarity`) -/

/-- The fixed business-suffix list from the source, in source order. -/
def bizSuffixes : List String :=
  ["inc", "llc", "corp", "ltd", "company", "co", "enterprises", "group"]

/-- One loop iteration of the source: `e.replace(" sfx", "").replace(".sfx", "")`. -/
def stripOneSuffix (s : List Char) (sfx : String) : List Char :=
  removePat (removePat s (' ' :: sfx.data)) ('.' :: sfx.data)

/-- The full suffix-stripping loop of `_calculate_employer_similarity`. -/
def stripSuffixes (s : String) : String :=
  String.mk (bizSuffixes.foldl stripOneSuffix s.data)

/-- `_calculate_employer_similarity`: falsy guard, normalise, equality
short-circuit, strip the suffix patterns from both strings, then delegate to
`nameSimilarity`. -/
def employerSimilarity (e1 e2 : String) : ℚ :=
  if e1 = "" ∨ e2 = "" then 0
  else
    let n1 := normStr e1
    let n2 := normStr e2
    if n1 = n2 then 1
    else nameSimilarity (stripSuffixes n1) (stripSuffixes n2)

/-- Modelled from the spec (for comparison with the code): strip the business
suffixes only where they occur as whole trailing whitespace tokens. -/
def specStripTrailing (s : String) : String :=
  let toks := splitWs (normStr s)
  String.intercalate " " ((toks.reverse.dropWhile (fun t => decide (t ∈ bizSuffixes))).reverse)

/-- Modelled from the spec (for comparison with the code): the employer variant
strips trailing suffix tokens from both strings and delegates to the scorer. -/
def specEmployerSimilarity (e1 e2 : String) : ℚ :=
  nameSimilarity (specStripTrailing e1) (specStripTrailing e2)

/-! ## Python dictionary values

A Python dict lookup `d.get(key, default)` distinguishes an absent key
(returns the default), a key stored with value `None` (returns `None`), and a
stored value.  `PyStr`/`PyNum` model those three cases for string and numeric
fields; `getD`/`getD0` model the lookups used in `verify_application_data`,
with `none` standing for a Python `None` result. -/

inductive PyStr
  | absent
  | pnull
  | pstr (s : String)
deriving DecidableEq

inductive PyNum
  | absent
  | pnull
  | pnum (q : ℚ)
deriving DecidableEq

/-- `d.get(key, default)` for a string field. -/
def PyStr.getD (v : PyStr) (d : String) : Option String :=
  match v with
  | .absent => some d
  | .pnull => none
  | .pstr s => some s

/-- `d.get(key, 0)` for a numeric field (default `0`). -/
def PyNum.getD0 (v : PyNum) : Option ℚ :=
  match v with
  | .absent => some 0
  | .pnull => none
  | .pnum q => some q

/-- Python truthiness of a possibly-`None` number: `None` and `0` are falsy. -/
def truthyNum : Option ℚ → Bool
  | none => false
  | some q => decide (q ≠ 0)

/-- Python truthiness of a possibly-`None` string: `None` and `""` are falsy. -/
def truthyStr : Option String → Bool
  | none => false
  | some s => decide (s ≠ "")

/-! ## Data model of `verify_application_data` -/

/-- The application-side fields read by `verify_application_data`. -/
structure ApplicationData where
  name : PyStr
  annualSalary : PyNum
  employerName : PyStr
  ssn : PyStr
deriving DecidableEq

/-- The extracted-side fields read by `verify_application_data`. -/
structure ExtractedData where
  employeeName : PyStr
  companyName : PyStr
  annualSalary : PyNum
  ssn : PyStr
deriving DecidableEq

/-- The reason strings attached to each field verdict, modelled structurally
(one constructor per message template of the source, with the interpolated
quantities as arguments). -/
inductive Reason
  | nameMatched (score : ℚ)
  | nameMismatched (score : ℚ)
  | nameMissing
  | salaryMatched (tol diff pct : ℚ)
  | salaryMismatched (diff pct : ℚ)
  | salaryNotProvided
  | salaryNotExtracted
  | employerMatched (score : ℚ)
  | employerMismatched (score : ℚ)
  | employerMissing
  | employerNotExtracted
  | ssnMatched
  | ssnMismatched (appLast4 extracted : String)
  | ssnMissing
  | ssnNotExtracted
  | verificationError
deriving DecidableEq

/-- Overall verification status. -/
inductive Status
  | verified
  | mismatch
  | error
deriving DecidableEq

/-! ## Verdict aggregator (`_calculate_overall_verification_status`) -/

/-- One field check of the aggregator: a `None` flag contributes nothing, a
true flag contributes to `verified_fields`, a false flag to `mismatches`. -/
def collectField (flag : Option Bool) (fname : String) : List String × List String :=
  match flag with
  | none => ([], [])
  | some true => ([fname], [])
  | some false => ([], [fname])

/-- Output of the aggregator (the keys it adds to the results dict). -/
structure AggOut where
  status : Status
  score : ℚ
  mismatches : List String
  verifiedFields : List String
deriving DecidableEq

/-- `_calculate_overall_verification_status`: collect verified fields and
mismatches in the fixed order name, salary, employer, ssn; score is
`verified / total * 100` when any field was evaluated, else `0`; status is
`verified` exactly when no mismatch was collected. -/
def aggregate (nm sm em xm : Option Bool) : AggOut :=
  let cn := collectField nm "name"
  let cs := collectField sm "salary"
  let ce := collectField em "employer"
  let cx := collectField xm "ssn"
  let verifiedFields := cn.1 ++ cs.1 ++ ce.1 ++ cx.1
  let mismatches := cn.2 ++ cs.2 ++ ce.2 ++ cx.2
  let total := verifiedFields.length + mismatches.length
  let score : ℚ := if 0 < total then (verifiedFields.length : ℚ) / (total : ℚ) * 100 else 0
  let status := if mismatches.length = 0 then Status.verified else Status.mismatch
  { status := status, score := score, mismatches := mismatches,
    verifiedFields := verifiedFields }

/-! ## Field comparisons of `verify_application_data` -/

/-- Name verification block: both normalised names must be nonempty (truthy),
then an 80 percent similarity threshold decides the match. -/
def nameVerdict (appNameRaw exNameRaw : String) : Bool × Reason :=
  let appName := normStr appNameRaw
  let exName := normStr exNameRaw
  if appName ≠ "" ∧ exName ≠ "" then
    let score := nameSimilarity appName exName
    if (4 : ℚ) / 5 ≤ score then (true, .nameMatched score)
    else (false, .nameMismatched score)
  else (false, .nameMissing)

/-- The salary tolerance tiers of the source. -/
def salaryTolerance (appSalary : ℚ) : ℚ :=
  if appSalary < 30000 then 15 else if appSalary < 100000 then 12 else 10

/-- Salary verification block: both values must be truthy; the difference
percentage (100 when the declared salary is not positive) is compared against
the tolerance tier, boundary inclusive.  Returns the match flag, the reason and
the stored `extracted_salary` value. -/
def salaryVerdict (appSal exSal : PyNum) : Bool × Reason × Option ℚ :=
  let appSalV := appSal.getD0
  let exSalV := exSal.getD0
  if truthyNum exSalV && truthyNum appSalV then
    let a := appSalV.getD 0
    let e := exSalV.getD 0
    let diff := |a - e|
    let pct := if 0 < a then diff / a * 100 else 100
    let tol := salaryTolerance a
    if pct ≤ tol then (true, .salaryMatched tol diff pct, some e)
    else (false, .salaryMismatched diff pct, some e)
  else if truthyNum exSalV then (false, .salaryNotProvided, exSalV)
  else (false, .salaryNotExtracted, none)

/-- Employer verification block: requires a truthy extracted employer, stores
the raw extracted company name, and applies the 80 percent threshold to the
employer similarity when the application employer is also truthy. -/
def employerVerdict (appEmpRaw exEmpRaw : String) : Bool × Reason × Option String :=
  let appEmp := normStr appEmpRaw
  let exEmp := normStr exEmpRaw
  if exEmp ≠ "" then
    if appEmp ≠ "" then
      let score := employerSimilarity appEmp exEmp
      if (4 : ℚ) / 5 ≤ score then (true, .employerMatched score, some exEmpRaw)
      else (false, .employerMismatched score, some exEmpRaw)
    else (false, .employerMissing, some exEmpRaw)
  else (false, .employerNotExtracted, none)

/-- Python `s[-4:]` guarded by `len(s) >= 4`, as in the source. -/
def last4 (s : String) : String :=
  if 4 ≤ s.data.length then String.mk (s.data.drop (s.data.length - 4)) else s

/-- SSN verification block: requires a truthy extracted SSN, stores it, and
compares the last four characters of the application SSN for exact equality
when the application SSN is also truthy. -/
def ssnVerdict (appSsn exSsn : PyStr) : Bool × Reason × Option String :=
  let appSsnV := appSsn.getD ""
  let exSsnV := exSsn.getD ""
  if truthyStr exSsnV then
    let e := exSsnV.getD ""
    if truthyStr appSsnV then
      let a := appSsnV.getD ""
      let aLast := last4 a
      if aLast = e then (true, .ssnMatched, some e)
      else (false, .ssnMismatched aLast e, some e)
    else (false, .ssnMissing, some e)
  else (false, .ssnNotExtracted, none)

/-- The full results dict returned by a successful `verify_application_data`
run (field verdicts plus the keys the aggregator adds). -/
structure VResults where
  nameMatch : Bool
  nameReason : Reason
  salaryMatch : Bool
  salaryReason : Reason
  extractedSalary : Option ℚ
  employerMatch : Bool
  employerReason : Reason
  extractedEmployer : Option String
  ssnMatch : Bool
  ssnReason : Reason
  extractedSsn : Option String
  overallStatus : Status
  verificationScore : ℚ
  mismatches : List String
  verifiedFields : List String
deriving DecidableEq

/-- Assemble the results dict from the four field verdicts and the aggregator
output (at this point all four match flags are genuine booleans). -/
def buildResult (n : Bool) (nr : Reason) (s : Bool) (sr : Reason) (esal : Option ℚ)
    (e : Bool) (er : Reason) (eemp : Option String)
    (x : Bool) (xr : Reason) (essn : Option String) : VResults :=
  let agg := aggregate (some n) (some s) (some e) (some x)
  { nameMatch := n, nameReason := nr,
    salaryMatch := s, salaryReason := sr, extractedSalary := esal,
    employerMatch := e, employerReason := er, extractedEmployer := eemp,
    ssnMatch := x, ssnReason := xr, extractedSsn := essn,
    overallStatus := agg.status, verificationScore := agg.score,
    mismatches := agg.mismatches, verifiedFields := agg.verifiedFields }

/-- The comparison pipeline of `verify_application_data` once the four string
fields have been read without raising: the four field blocks followed by the
aggregator. -/
def compareFields (appNameRaw exNameRaw appEmpRaw exEmpRaw : String)
    (appSal exSal : PyNum) (appSsn exSsn : PyStr) : VResults :=
  let nv := nameVerdict appNameRaw exNameRaw
  let sv := salaryVerdict appSal exSal
  let ev := employerVerdict appEmpRaw exEmpRaw
  let xv := ssnVerdict appSsn exSsn
  buildResult nv.1 nv.2 sv.1 sv.2.1 sv.2.2 ev.1 ev.2.1 ev.2.2 xv.1 xv.2.1 xv.2.2

/-- Outcome of `verify_application_data`: either the full results dict, or the
fallback error dict produced by the outer `except` handler (overall status
`"error"`, all flags false, error reasons, no score key). -/
inductive VerifyOutcome
  | ok (r : VResults)
  | errorDict
deriving DecidableEq

/-- The `overall_status` value carried by an outcome. -/
def VerifyOutcome.overall : VerifyOutcome → Status
  | .ok r => r.overallStatus
  | .errorDict => .error

/-- `verify_application_data`.  An unconfigured API key raises, and reading a
`None`-valued name or employer field raises `AttributeError` in
`.lower()`; both land in the outer `except` handler, which returns the error
dict.  Otherwise the comparison pipeline runs to completion. -/
def verify (apiKeyOk : Bool) (app : ApplicationData) (ex : ExtractedData) : VerifyOutcome :=
  match apiKeyOk, app.name.getD "", ex.employeeName.getD "",
      app.employerName.getD "", ex.companyName.getD "" with
  | true, some an, some en, some ae, some ce =>
      .ok (compareFields an en ae ce app.annualSalary ex.annualSalary app.ssn ex.ssn)
  | _, _, _, _, _ => .errorDict

/-! ## Annual salary derivation (`_post_process_extracted_data`) -/

/-- The annual-salary fallback chain of `_post_process_extracted_data`.
`annual`, `gross`, `net` and `ytd` are the already-coerced numeric fields
(`none` for absent or null), `payPeriod` the cleaned pay-period string.
Returns the final `annual_salary` field. -/
def deriveAnnualSalary (annual gross net ytd : Option ℚ) (payPeriod : Option String) :
    Option ℚ :=
  if truthyNum annual then annual
  else
    if truthyNum gross && truthyStr payPeriod then
      let g := gross.getD 0
      let p := lowerStr (payPeriod.getD "")
      if strHas p "weekly" || strHas p "week" then some (g * 52)
      else if strHas p "bi-weekly" || strHas p "biweekly" || strHas p "bi weekly" then
        some (g * 26)
      else if strHas p "semi-monthly" || strHas p "semi monthly" then some (g * 24)
      else if strHas p "monthly" || strHas p "month" then some (g * 12)
      else if strHas p "daily" || strHas p "day" then some (g * 260)
      else annual
    else if truthyNum gross && !truthyStr payPeriod then
      let g := gross.getD 0
      if 1000 ≤ g ∧ g ≤ 500000 then some (g * 12) else annual
    else if truthyNum net && !truthyNum gross then
      let n := net.getD 0
      if 1000 ≤ n ∧ n ≤ 500000 then some (n * 12) else annual
    else if truthyNum ytd then some (ytd.getD 0 * 4)
    else annual

/-! ## Streaming interface (`generate_verification_stream`) -/

/-- One server-sent event of the verification stream. -/
structure StreamEvent where
  step : String
  progress : Nat
  isError : Bool
deriving DecidableEq

/-- A normal progress event. -/
def mkEvent (s : String) (p : Nat) : StreamEvent := ⟨s, p, false⟩

/-- The short-circuiting error event (`progress` 0, `error` true). -/
def errEvent : StreamEvent := ⟨"error", 0, true⟩

/-- The event sequence of `generate_verification_stream` for one run, indexed
by whether the OCR extraction call and the verification/persistence call
succeed. -/
def verificationStream (extractionOk verificationOk : Bool) : List StreamEvent :=
  [mkEvent "starting" 0, mkEvent "downloading" 20, mkEvent "ocr" 40,
    mkEvent "extracting" 50] ++
  if !extractionOk then [errEvent]
  else
    [mkEvent "extracted" 60, mkEvent "verifying_name" 70, mkEvent "verifying_salary" 80,
      mkEvent "verifying_employer" 90, mkEvent "finalizing" 95] ++
    if !verificationOk then [errEvent] else [mkEvent "complete" 100]

/-- Modelled from the spec (for comparison with the code): the step order the
spec section 6 prescribes for the progress stream. -/
def specStepOrder : List (String × Nat) :=
  [("starting", 0), ("downloading", 20), ("extracting", 40), ("extracted", 60),
    ("verifying_name", 70), ("verifying_salary", 80), ("verifying_employer", 90),
    ("finalizing", 95), ("complete", 100)]

end LoanVerify

-- Concrete evaluation of the embedded functions uses kernel reduction;
-- the rational-number operations must be reducible for that.
attribute [local semireducible] Rat.mul Rat.inv Rat.add Rat.sub


namespace LoanVerify

/-! ## Helper lemmas -/

/-- The aggregator output attached by `buildResult` is determined by the four
boolean match flags: status, score and the non-error guarantee. -/
theorem buildResult_flags (n s e x : Bool) (nr sr er xr : Reason) (esal : Option ℚ)
    (eemp essn : Option String) :
    ((buildResult n nr s sr esal e er eemp x xr essn).overallStatus = .mismatch ↔
      (n = false ∨ s = false ∨ e = false ∨ x = false)) ∧
    ((buildResult n nr s sr esal e er eemp x xr essn).overallStatus = .verified ↔
      (n = true ∧ s = true ∧ e = true ∧ x = true)) ∧
    (buildResult n nr s sr esal e er eemp x xr essn).verificationScore =
      ((List.countP id [n, s, e, x] : ℚ)) / 4 * 100 ∧
    (buildResult n nr s sr esal e er eemp x xr essn).overallStatus ≠ .error := by
  have hst : (buildResult n nr s sr esal e er eemp x xr essn).overallStatus =
      (aggregate (some n) (some s) (some e) (some x)).status := rfl
  have hsc : (buildResult n nr s sr esal e er eemp x xr essn).verificationScore =
      (aggregate (some n) (some s) (some e) (some x)).score := rfl
  rw [hst, hsc]
  cases n <;> cases s <;> cases e <;> cases x <;> decide

theorem buildResult_nameMatch (n : Bool) (nr : Reason) (s : Bool) (sr : Reason)
    (esal : Option ℚ) (e : Bool) (er : Reason) (eemp : Option String) (x : Bool)
    (xr : Reason) (essn : Option String) :
    (buildResult n nr s sr esal e er eemp x xr essn).nameMatch = n ∧
    (buildResult n nr s sr esal e er eemp x xr essn).nameReason = nr := ⟨rfl, rfl⟩

/-- A failed truthiness test on either side forces the missing-data verdict in
the name block. -/
theorem nameVerdict_missing (an en : String) (h : normStr an = "" ∨ normStr en = "") :
    nameVerdict an en = (false, .nameMissing) := by
  rcases h with h | h <;> simp [nameVerdict, h]

/-- A falsy extracted salary forces the could-not-extract verdict in the
salary block. -/
theorem salaryVerdict_notExtracted (appSal exSal : PyNum)
    (he : truthyNum exSal.getD0 = false) :
    salaryVerdict appSal exSal = (false, .salaryNotExtracted, none) := by
  simp [salaryVerdict, he]

/-- A truthy extracted salary with a falsy application salary forces the
not-provided verdict in the salary block. -/
theorem salaryVerdict_notProvided (appSal exSal : PyNum)
    (he : truthyNum exSal.getD0 = true) (ha : truthyNum appSal.getD0 = false) :
    salaryVerdict appSal exSal = (false, .salaryNotProvided, exSal.getD0) := by
  simp [salaryVerdict, he, ha]

/-- An empty normalised extracted employer forces the could-not-extract
verdict in the employer block. -/
theorem employerVerdict_notExtracted (ae ce : String) (h : normStr ce = "") :
    employerVerdict ae ce = (false, .employerNotExtracted, none) := by
  simp [employerVerdict, h]

/-- A nonempty extracted employer with an empty normalised application
employer forces the missing-data verdict in the employer block. -/
theorem employerVerdict_missing (ae ce : String) (hce : normStr ce ≠ "")
    (hae : normStr ae = "") :
    employerVerdict ae ce = (false, .employerMissing, some ce) := by
  simp [employerVerdict, hce, hae]

/-- A falsy extracted SSN forces the could-not-extract verdict in the SSN
block. -/
theorem ssnVerdict_notExtracted (appSsn exSsn : PyStr)
    (h : truthyStr (exSsn.getD "") = false) :
    ssnVerdict appSsn exSsn = (false, .ssnNotExtracted, none) := by
  simp [ssnVerdict, h]

/-- A truthy extracted SSN with a falsy application SSN forces the
missing-data verdict in the SSN block. -/
theorem ssnVerdict_missing (appSsn exSsn : PyStr)
    (he : truthyStr (exSsn.getD "") = true) (ha : truthyStr (appSsn.getD "") = false) :
    ssnVerdict appSsn exSsn = (false, .ssnMissing, some ((exSsn.getD "").getD "")) := by
  simp [ssnVerdict, he, ha]

end LoanVerify

namespace LoanVerify

/-- C10: in `_calculate_overall_verification_status` taken in isolation, the
score denominator is the number of match flags that are not `None`, and with
all four flags `None` the aggregator returns status `"verified"` with score
`0`. -/
theorem claim10_aggregator_denominator_and_vacuous_verified :
    (∀ nm sm em xm : Option Bool,
      (aggregate nm sm em xm).score =
        (if ([nm, sm, em, xm].countP Option.isSome) = 0 then 0
          else (([nm, sm, em, xm].countP (fun o => o == some true)) : ℚ) /
            (([nm, sm, em, xm].countP Option.isSome) : ℚ) * 100)) ∧
    (aggregate none none none none).status = .verified ∧
    (aggregate none none none none).score = 0 ∧
    (aggregate none none none none).verifiedFields = [] := by
  refine ⟨?_, by decide, by decide, by decide⟩
  intro nm sm em xm
  cases nm <;> cases sm <;> cases em <;> cases xm <;>
    first
    | decide
    | (rename_i a b c d; cases a <;> cases b <;> cases c <;> cases d <;> decide)
    | (rename_i a b c; cases a <;> cases b <;> cases c <;> decide)
    | (rename_i a b; cases a <;> cases b <;> decide)
    | (rename_i a; cases a <;> decide)

/-- C5 counterexample: the success-path event sequence of
`generate_verification_stream` is not the step order the claim states (the
code emits `ocr` at progress 40 and `extracting` at 50). -/
theorem claim5_stream_order_counterexample :
    ((verificationStream true true).map fun e => (e.step, e.progress)) ≠ specStepOrder ∧
    (mkEvent "ocr" 40) ∈ verificationStream true true ∧
    (mkEvent "extracting" 50) ∈ verificationStream true true := by decide

/-- C5 amended: one run emits, in order, `starting(0), downloading(20),
ocr(40), extracting(50), extracted(60), verifying_name(70),
verifying_salary(80), verifying_employer(90), finalizing(95), complete(100)`;
a failing extraction call short-circuits to the terminating `error(0)` event
right after `extracting(50)`, a failing verification call right after
`finalizing(95)`; no step name is emitted twice. -/
theorem claim5_stream_order_amended :
    verificationStream true true =
      [mkEvent "starting" 0, mkEvent "downloading" 20, mkEvent "ocr" 40,
        mkEvent "extracting" 50, mkEvent "extracted" 60, mkEvent "verifying_name" 70,
        mkEvent "verifying_salary" 80, mkEvent "verifying_employer" 90,
        mkEvent "finalizing" 95, mkEvent "complete" 100] ∧
    (∀ vOk, verificationStream false vOk =
      [mkEvent "starting" 0, mkEvent "downloading" 20, mkEvent "ocr" 40,
        mkEvent "extracting" 50, errEvent]) ∧
    verificationStream true false =
      [mkEvent "starting" 0, mkEvent "downloading" 20, mkEvent "ocr" 40,
        mkEvent "extracting" 50, mkEvent "extracted" 60, mkEvent "verifying_name" 70,
        mkEvent "verifying_salary" 80, mkEvent "verifying_employer" 90,
        mkEvent "finalizing" 95, errEvent] ∧
    (∀ eo vo, ((verificationStream eo vo).map StreamEvent.step).Nodup) := by decide

/-- C6 counterexample: with gross pay 5000 and the unrecognised pay-period
string "Quarterly", the derivation leaves the annual salary unknown instead of
assuming monthly and returning 60000. -/
theorem claim6_unusable_period_counterexample :
    deriveAnnualSalary none (some 5000) none none (some "Quarterly") = none ∧
    deriveAnnualSalary none (some 5000) none none (some "Quarterly") ≠
      some ((5000 : ℚ) * 12) := by decide

/-- C6 amended: the monthly assumption `gross_pay * 12` (for
`1000 ≤ gross_pay ≤ 500000`) applies only when the pay-period field is absent
or empty; when a nonempty pay-period string is present but matches no known
period keyword, the strategy chain is captured by the gross-and-period branch
and the annual salary is left unchanged. -/
theorem claim6_monthly_assumption_amended :
    (∀ (annual net ytd : Option ℚ) (p : Option String) (g : ℚ),
      truthyNum annual = false → truthyStr p = false → 1000 ≤ g → g ≤ 500000 →
      deriveAnnualSalary annual (some g) net ytd p = some (g * 12)) ∧
    (∀ (annual net ytd : Option ℚ) (s : String) (g : ℚ),
      truthyNum annual = false → g ≠ 0 → s ≠ "" →
      strHas (lowerStr s) "weekly" = false → strHas (lowerStr s) "week" = false →
      strHas (lowerStr s) "bi-weekly" = false → strHas (lowerStr s) "biweekly" = false →
      strHas (lowerStr s) "bi weekly" = false →
      strHas (lowerStr s) "semi-monthly" = false →
      strHas (lowerStr s) "semi monthly" = false →
      strHas (lowerStr s) "monthly" = false → strHas (lowerStr s) "month" = false →
      strHas (lowerStr s) "daily" = false → strHas (lowerStr s) "day" = false →
      deriveAnnualSalary annual (some g) net ytd (some s) = annual) := by
  constructor
  · intro annual net ytd p g ha hp h1 h2
    have hg : g ≠ 0 := by intro h; rw [h] at h1; norm_num at h1
    have ht : truthyNum (some g) = true := by simp [truthyNum, hg]
    simp [deriveAnnualSalary, ha, hp, ht, h1, h2]
  · intro annual net ytd s g ha hg hs k1 k2 k3 k4 k5 k6 k7 k8 k9 k10 k11
    simp [deriveAnnualSalary, ha, truthyNum, truthyStr, hg, hs,
      k1, k2, k3, k4, k5, k6, k7, k8, k9, k10, k11]

/-- C6 amended, witness: gross pay 5000 with no pay period yields 60000. -/
theorem claim6_monthly_assumption_witness :
    deriveAnnualSalary none (some 5000) none none none = some ((5000 : ℚ) * 12) :=
  claim6_monthly_assumption_amended.1 none none none none 5000 rfl rfl
    (by norm_num) (by norm_num)

/-- C4: when both salaries are present and the declared salary is positive,
the tolerance is 15 percent below 30000, 12 percent below 100000 and 10
percent otherwise, and the salary matches exactly when the difference
percentage is at most the tolerance (boundary inclusive); 50000 against 56000
matches, 50000 against 57000 does not. -/
theorem claim4_salary_tolerance_bands :
    ∀ d e : ℚ, 0 < d → e ≠ 0 →
      (((salaryVerdict (.pnum d) (.pnum e)).1 = true) ↔
        |d - e| / d * 100 ≤ salaryTolerance d) ∧
      salaryTolerance d = (if d < 30000 then 15 else if d < 100000 then 12 else 10) ∧
      (salaryVerdict (.pnum 50000) (.pnum 56000)).1 = true ∧
      (salaryVerdict (.pnum 50000) (.pnum 57000)).1 = false := by
  intro d e hd he
  refine ⟨?_, rfl, by decide, by decide⟩
  have hd' : d ≠ 0 := ne_of_gt hd
  by_cases hle : |d - e| / d * 100 ≤ salaryTolerance d
  · simp [salaryVerdict, PyNum.getD0, truthyNum, hd', he, hd, hle]
  · simp [salaryVerdict, PyNum.getD0, truthyNum, hd', he, hd, hle]

/-- C4 witness: the theorem applied at the boundary pair from the claim. -/
theorem claim4_salary_tolerance_witness :
    (salaryVerdict (.pnum 50000) (.pnum 56000)).1 = true ∧
    (salaryVerdict (.pnum 50000) (.pnum 57000)).1 = false :=
  (claim4_salary_tolerance_bands 50000 56000 (by norm_num) (by norm_num)).2.2

end LoanVerify

namespace LoanVerify

/-- C7 counterexample: the suffix stripping is a substring replacement, not a
whole-trailing-token removal; with "acme co" against "acme cola" the code
strips " co" out of the middle of "cola" and scores 0, while the claimed
trailing-token procedure scores 7/10. -/
theorem claim7_suffix_strip_counterexample :
    employerSimilarity "acme co" "acme cola" = 0 ∧
    specEmployerSimilarity "acme co" "acme cola" = 7 / 10 ∧
    employerSimilarity "acme co" "acme cola" ≠
      specEmployerSimilarity "acme co" "acme cola" := by decide

/-- C7 amended: for nonempty employer strings that are distinct after
normalisation, the employer similarity removes every occurrence of each
business suffix preceded by a space or a period from both normalised strings,
anywhere in the string (also inside and in the middle of other words), and
then applies the name similarity to the stripped strings. -/
theorem claim7_suffix_strip_amended :
    ∀ e1 e2 : String, e1 ≠ "" → e2 ≠ "" → normStr e1 ≠ normStr e2 →
      employerSimilarity e1 e2 =
        nameSimilarity (stripSuffixes (normStr e1)) (stripSuffixes (normStr e2)) := by
  intro e1 e2 h1 h2 h3
  simp [employerSimilarity, h1, h2, h3]

/-- C7 amended, witness at the strings of the counterexample. -/
theorem claim7_suffix_strip_witness :
    employerSimilarity "acme co" "acme cola" =
      nameSimilarity (stripSuffixes (normStr "acme co"))
        (stripSuffixes (normStr "acme cola")) :=
  claim7_suffix_strip_amended "acme co" "acme cola" (by decide) (by decide) (by decide)

/-- C8 counterexample: two empty strings are equal after lower-casing and
trimming, yet the scorer returns 0, not 1, because the falsy-input guard runs
first. -/
theorem claim8_empty_equal_counterexample :
    nameSimilarity "" "" = 0 ∧ nameSimilarity "" "" ≠ 1 := by decide

/-- C8 amended: for nonempty strings (all-whitespace strings included) that
are equal after lower-casing and trimming the scorer returns exactly 1;
two empty strings return 0; the pair "John Smith" / "john   smith" scores
exactly 1. -/
theorem claim8_normalised_equality_amended :
    (∀ a b : String, a ≠ "" → b ≠ "" → normStr a = normStr b →
      nameSimilarity a b = 1) ∧
    nameSimilarity "John Smith" "john   smith" = 1 ∧
    nameSimilarity "" "" = 0 := by
  refine ⟨?_, by decide, by decide⟩
  intro a b ha hb h
  simp [nameSimilarity, ha, hb, h]

/-- C8 amended, witness: two distinct all-whitespace strings score 1. -/
theorem claim8_normalised_equality_witness :
    nameSimilarity " " "  " = 1 :=
  claim8_normalised_equality_amended.1 " " "  " (by decide) (by decide) (by decide)

/-- C9: the comparison-and-aggregation pipeline is deterministic; two runs of
`verify_application_data` on identical inputs produce identical results
(the embedding carries no timestamp, which is attached at persistence). -/
theorem claim9_pipeline_deterministic :
    ∀ (k : Bool) (app : ApplicationData) (ex : ExtractedData) (r1 r2 : VerifyOutcome),
      verify k app ex = r1 → verify k app ex = r2 → r1 = r2 := by
  intro k app ex r1 r2 h1 h2
  rw [← h1, ← h2]

/-- C9 witness at a concrete run. -/
theorem claim9_pipeline_deterministic_witness :
    verify true ⟨.pstr "john smith", .pnum 50000, .pstr "acme", .pstr "123456789"⟩
        ⟨.pstr "john smith", .pstr "acme", .pnum 50000, .pstr "6789"⟩ =
      verify true ⟨.pstr "john smith", .pnum 50000, .pstr "acme", .pstr "123456789"⟩
        ⟨.pstr "john smith", .pstr "acme", .pnum 50000, .pstr "6789"⟩ :=
  claim9_pipeline_deterministic true
    ⟨.pstr "john smith", .pnum 50000, .pstr "acme", .pstr "123456789"⟩
    ⟨.pstr "john smith", .pstr "acme", .pnum 50000, .pstr "6789"⟩ _ _ rfl rfl

/-- C2 counterexample: an extracted record whose `employee_name` key holds
`None` (as the parse-failure fallback produces) makes
`verify_application_data` raise in `.lower()` and return the error dict, so
the run ends with `overall_status = "error"`. -/
theorem claim2_none_name_counterexample :
    verify true ⟨.pstr "john smith", .pnum 50000, .pstr "acme", .pstr "123456789"⟩
        ⟨.pnull, .pstr "acme", .pnum 50000, .pstr "6789"⟩ = .errorDict ∧
    (verify true ⟨.pstr "john smith", .pnum 50000, .pstr "acme", .pstr "123456789"⟩
        ⟨.pnull, .pstr "acme", .pnum 50000, .pstr "6789"⟩).overall = .error := ⟨rfl, rfl⟩

/-- C2 amended: when the name and employer fields on both sides are not
`None`-valued (absent keys and empty strings are fine), the pipeline always
completes with a full results dict whose status is never `"error"`, and every
comparison with a missing side - an absent or empty name on either side, a
missing or zero salary on either side, a missing employer on either side, a
missing SSN on either side - yields a non-matching verdict carrying the
explanatory missing-data reason of its block.  A `None`-valued name or
employer field instead raises and is returned as the error dict. -/
theorem claim2_missing_data_amended :
    ∀ (app : ApplicationData) (ex : ExtractedData) (an en ae ce : String),
      app.name.getD "" = some an → ex.employeeName.getD "" = some en →
      app.employerName.getD "" = some ae → ex.companyName.getD "" = some ce →
      verify true app ex = .ok (compareFields an en ae ce app.annualSalary
        ex.annualSalary app.ssn ex.ssn) ∧
      (compareFields an en ae ce app.annualSalary ex.annualSalary app.ssn
        ex.ssn).overallStatus ≠ .error ∧
      (normStr an = "" ∨ normStr en = "" →
        (compareFields an en ae ce app.annualSalary ex.annualSalary app.ssn
          ex.ssn).nameMatch = false ∧
        (compareFields an en ae ce app.annualSalary ex.annualSalary app.ssn
          ex.ssn).nameReason = .nameMissing) ∧
      (truthyNum ex.annualSalary.getD0 = false →
        (compareFields an en ae ce app.annualSalary ex.annualSalary app.ssn
          ex.ssn).salaryMatch = false ∧
        (compareFields an en ae ce app.annualSalary ex.annualSalary app.ssn
          ex.ssn).salaryReason = .salaryNotExtracted) ∧
      (truthyNum ex.annualSalary.getD0 = true → truthyNum app.annualSalary.getD0 = false →
        (compareFields an en ae ce app.annualSalary ex.annualSalary app.ssn
          ex.ssn).salaryMatch = false ∧
        (compareFields an en ae ce app.annualSalary ex.annualSalary app.ssn
          ex.ssn).salaryReason = .salaryNotProvided) ∧
      (normStr ce = "" →
        (compareFields an en ae ce app.annualSalary ex.annualSalary app.ssn
          ex.ssn).employerMatch = false ∧
        (compareFields an en ae ce app.annualSalary ex.annualSalary app.ssn
          ex.ssn).employerReason = .employerNotExtracted) ∧
      (normStr ce ≠ "" → normStr ae = "" →
        (compareFields an en ae ce app.annualSalary ex.annualSalary app.ssn
          ex.ssn).employerMatch = false ∧
        (compareFields an en ae ce app.annualSalary ex.annualSalary app.ssn
          ex.ssn).employerReason = .employerMissing) ∧
      (truthyStr (ex.ssn.getD "") = false →
        (compareFields an en ae ce app.annualSalary ex.annualSalary app.ssn
          ex.ssn).ssnMatch = false ∧
        (compareFields an en ae ce app.annualSalary ex.annualSalary app.ssn
          ex.ssn).ssnReason = .ssnNotExtracted) ∧
      (truthyStr (ex.ssn.getD "") = true → truthyStr (app.ssn.getD "") = false →
        (compareFields an en ae ce app.annualSalary ex.annualSalary app.ssn
          ex.ssn).ssnMatch = false ∧
        (compareFields an en ae ce app.annualSalary ex.annualSalary app.ssn
          ex.ssn).ssnReason = .ssnMissing) := by
  intro app ex an en ae ce h1 h2 h3 h4
  refine ⟨by simp [verify, h1, h2, h3, h4], ?_, ?_, ?_, ?_, ?_, ?_, ?_, ?_⟩
  · exact (buildResult_flags (nameVerdict an en).1 (salaryVerdict app.annualSalary
      ex.annualSalary).1 (employerVerdict ae ce).1 (ssnVerdict app.ssn ex.ssn).1
      (nameVerdict an en).2 (salaryVerdict app.annualSalary ex.annualSalary).2.1
      (employerVerdict ae ce).2.1 (ssnVerdict app.ssn ex.ssn).2.1
      (salaryVerdict app.annualSalary ex.annualSalary).2.2
      (employerVerdict ae ce).2.2 (ssnVerdict app.ssn ex.ssn).2.2).2.2.2
  · intro h
    have hv := nameVerdict_missing an en h
    constructor
    · show (nameVerdict an en).1 = false
      rw [hv]
    · show (nameVerdict an en).2 = Reason.nameMissing
      rw [hv]
  · intro h
    have hv := salaryVerdict_notExtracted app.annualSalary ex.annualSalary h
    constructor
    · show (salaryVerdict app.annualSalary ex.annualSalary).1 = false
      rw [hv]
    · show (salaryVerdict app.annualSalary ex.annualSalary).2.1 = Reason.salaryNotExtracted
      rw [hv]
  · intro he ha
    have hv := salaryVerdict_notProvided app.annualSalary ex.annualSalary he ha
    constructor
    · show (salaryVerdict app.annualSalary ex.annualSalary).1 = false
      rw [hv]
    · show (salaryVerdict app.annualSalary ex.annualSalary).2.1 = Reason.salaryNotProvided
      rw [hv]
  · intro h
    have hv := employerVerdict_notExtracted ae ce h
    constructor
    · show (employerVerdict ae ce).1 = false
      rw [hv]
    · show (employerVerdict ae ce).2.1 = Reason.employerNotExtracted
      rw [hv]
  · intro hce hae
    have hv := employerVerdict_missing ae ce hce hae
    constructor
    · show (employerVerdict ae ce).1 = false
      rw [hv]
    · show (employerVerdict ae ce).2.1 = Reason.employerMissing
      rw [hv]
  · intro h
    have hv := ssnVerdict_notExtracted app.ssn ex.ssn h
    constructor
    · show (ssnVerdict app.ssn ex.ssn).1 = false
      rw [hv]
    · show (ssnVerdict app.ssn ex.ssn).2.1 = Reason.ssnNotExtracted
      rw [hv]
  · intro he ha
    have hv := ssnVerdict_missing app.ssn ex.ssn he ha
    constructor
    · show (ssnVerdict app.ssn ex.ssn).1 = false
      rw [hv]
    · show (ssnVerdict app.ssn ex.ssn).2.1 = Reason.ssnMissing
      rw [hv]

/-- The results dict of the sample run used by the C2 witness: the extracted
employee-name key is absent, everything else is present and matching. -/
def claim2SampleResult : VResults :=
  compareFields "john smith" "" "acme" "acme" (.pnum 50000) (.pnum 50000)
    (.pstr "123456789") (.pstr "6789")

/-- C2 amended, witness: an extracted record with the employee-name key absent
completes, has no error status, and carries the missing-data name verdict. -/
theorem claim2_missing_data_witness :
    verify true ⟨.pstr "john smith", .pnum 50000, .pstr "acme", .pstr "123456789"⟩
        ⟨.absent, .pstr "acme", .pnum 50000, .pstr "6789"⟩ = .ok claim2SampleResult ∧
    claim2SampleResult.overallStatus ≠ .error ∧
    claim2SampleResult.nameMatch = false ∧
    claim2SampleResult.nameReason = .nameMissing := by
  have h := claim2_missing_data_amended
    ⟨.pstr "john smith", .pnum 50000, .pstr "acme", .pstr "123456789"⟩
    ⟨.absent, .pstr "acme", .pnum 50000, .pstr "6789"⟩
    "john smith" "" "acme" "acme" rfl rfl rfl rfl
  exact ⟨h.1, h.2.1, (h.2.2.1 (Or.inr rfl)).1, (h.2.2.1 (Or.inr rfl)).2⟩

/-- C1: whenever `verify_application_data` completes its comparison pipeline
(so that all four field comparisons are evaluated to boolean match flags), the
overall status is `"mismatch"` exactly when at least one of the four flags is
false, `"verified"` exactly when all four are true, and the verification score
is the number of matched fields over 4, times 100. -/
theorem claim1_overall_status_iff_flags :
    ∀ (k : Bool) (app : ApplicationData) (ex : ExtractedData) (r : VResults),
      verify k app ex = .ok r →
      ((r.overallStatus = .mismatch) ↔
        (r.nameMatch = false ∨ r.salaryMatch = false ∨ r.employerMatch = false ∨
          r.ssnMatch = false)) ∧
      ((r.overallStatus = .verified) ↔
        (r.nameMatch = true ∧ r.salaryMatch = true ∧ r.employerMatch = true ∧
          r.ssnMatch = true)) ∧
      r.verificationScore =
        ((List.countP id [r.nameMatch, r.salaryMatch, r.employerMatch,
          r.ssnMatch] : ℚ)) / 4 * 100 := by
  intro k app ex r h
  unfold verify at h
  split at h
  · injection h with h'
    subst h'
    exact ⟨(buildResult_flags _ _ _ _ _ _ _ _ _ _ _).1,
      (buildResult_flags _ _ _ _ _ _ _ _ _ _ _).2.1,
      (buildResult_flags _ _ _ _ _ _ _ _ _ _ _).2.2.1⟩
  · simp at h

end LoanVerify

namespace LoanVerify

/-- The results dict of the fully-matching sample run used by the C1 witness. -/
def claim1SampleResult : VResults :=
  compareFields "john smith" "john smith" "acme" "acme" (.pnum 50000) (.pnum 50000)
    (.pstr "123456789") (.pstr "6789")

/-- C1 witness: the aggregation property instantiated at a concrete run. -/
theorem claim1_overall_status_witness :
    ((claim1SampleResult.overallStatus = .mismatch) ↔
      (claim1SampleResult.nameMatch = false ∨ claim1SampleResult.salaryMatch = false ∨
        claim1SampleResult.employerMatch = false ∨ claim1SampleResult.ssnMatch = false)) ∧
    ((claim1SampleResult.overallStatus = .verified) ↔
      (claim1SampleResult.nameMatch = true ∧ claim1SampleResult.salaryMatch = true ∧
        claim1SampleResult.employerMatch = true ∧ claim1SampleResult.ssnMatch = true)) ∧
    claim1SampleResult.verificationScore =
      ((List.countP id [claim1SampleResult.nameMatch, claim1SampleResult.salaryMatch,
        claim1SampleResult.employerMatch, claim1SampleResult.ssnMatch] : ℚ)) / 4 * 100 :=
  claim1_overall_status_iff_flags true
    ⟨.pstr "john smith", .pnum 50000, .pstr "acme", .pstr "123456789"⟩
    ⟨.pstr "john smith", .pstr "acme", .pnum 50000, .pstr "6789"⟩
    claim1SampleResult rfl

/-! ## Symmetry of the similarity scorer -/

/-- The Jaccard part of the scorer is symmetric. -/
theorem jaccardQ_comm (A B : Finset String) : jaccardQ A B = jaccardQ B A := by
  unfold jaccardQ
  rw [Finset.union_comm, Finset.inter_comm]

/-- For a duplicate-free list, the membership-filter count is the cardinality
of the intersection of the two token sets. -/
theorem filter_mem_length (l m : List String) (h : l.Nodup) :
    (l.filter (fun w => decide (w ∈ m))).length = (l.toFinset ∩ m.toFinset).card := by
  have hfin : (l.filter (fun w => decide (w ∈ m))).toFinset = l.toFinset ∩ m.toFinset := by
    ext x
    simp [List.mem_filter, List.mem_toFinset]
  rw [← hfin, List.toFinset_card_of_nodup (h.filter _)]

/-- The word-order part of the scorer is symmetric on duplicate-free token
lists (for distinct lengths it is symmetric unconditionally, because both
orders pick the same shorter and longer list). -/
theorem containQ_comm (l1 l2 : List String) (h1 : l1.Nodup) (h2 : l2.Nodup) :
    containQ l1 l2 = containQ l2 l1 := by
  simp only [containQ]
  rcases lt_trichotomy l1.length l2.length with hlt | heq | hgt
  · have e1 : (if l1.length ≤ l2.length then l1 else l2) = l1 := if_pos hlt.le
    have e2 : (if l1.length ≤ l2.length then l2 else l1) = l2 := if_pos hlt.le
    have e3 : (if l2.length ≤ l1.length then l2 else l1) = l1 := if_neg (by omega)
    have e4 : (if l2.length ≤ l1.length then l1 else l2) = l2 := if_neg (by omega)
    rw [e1, e2, e3, e4]
  · have e1 : (if l1.length ≤ l2.length then l1 else l2) = l1 := if_pos heq.le
    have e2 : (if l1.length ≤ l2.length then l2 else l1) = l2 := if_pos heq.le
    have e3 : (if l2.length ≤ l1.length then l2 else l1) = l2 := if_pos heq.ge
    have e4 : (if l2.length ≤ l1.length then l1 else l2) = l1 := if_pos heq.ge
    rw [e1, e2, e3, e4]
    have hc : (l1.filter (fun w => decide (w ∈ l2))).length =
        (l2.filter (fun w => decide (w ∈ l1))).length := by
      rw [filter_mem_length _ _ h1, filter_mem_length _ _ h2, Finset.inter_comm]
    have hemp : l1.isEmpty = l2.isEmpty := by
      cases l1 <;> cases l2 <;> simp_all
    rw [hc, heq, hemp]
  · have e1 : (if l1.length ≤ l2.length then l1 else l2) = l2 := if_neg (by omega)
    have e2 : (if l1.length ≤ l2.length then l2 else l1) = l1 := if_neg (by omega)
    have e3 : (if l2.length ≤ l1.length then l2 else l1) = l2 := if_pos hgt.le
    have e4 : (if l2.length ≤ l1.length then l1 else l2) = l1 := if_pos hgt.le
    rw [e1, e2, e3, e4]

/-- C3 counterexample: the scorer is not symmetric when the two token lists
have equal length and one contains a repeated token; the word-order part then
divides different containment counts by the same length. -/
theorem claim3_symmetry_counterexample :
    nameSimilarity "x y" "x x" = 1 / 2 ∧ nameSimilarity "x x" "x y" = 7 / 10 ∧
    nameSimilarity "x y" "x x" ≠ nameSimilarity "x x" "x y" := by decide

/-- C3 amended: the scorer is symmetric for all pairs of strings whose
whitespace-token lists are free of repeated tokens (the counterexample needs a
repeated token in one of the equal-length lists). -/
theorem claim3_symmetry_amended :
    ∀ a b : String, (splitWs (normStr a)).Nodup → (splitWs (normStr b)).Nodup →
      nameSimilarity a b = nameSimilarity b a := by
  intro a b h1 h2
  simp only [nameSimilarity]
  by_cases h0 : a = "" ∨ b = ""
  · have h0' : b = "" ∨ a = "" := or_comm.mp h0
    rw [if_pos h0, if_pos h0']
  · have h0' : ¬(b = "" ∨ a = "") := fun hc => h0 (or_comm.mp hc)
    rw [if_neg h0, if_neg h0']
    by_cases he : normStr a = normStr b
    · have he' : normStr b = normStr a := he.symm
      rw [if_pos he, if_pos he']
    · have he' : ¬(normStr b = normStr a) := fun hc => he hc.symm
      rw [if_neg he, if_neg he']
      by_cases hw : tokSet (normStr a) = ∅ ∨ tokSet (normStr b) = ∅
      · have hw' : tokSet (normStr b) = ∅ ∨ tokSet (normStr a) = ∅ := or_comm.mp hw
        rw [if_pos hw, if_pos hw']
      · have hw' : ¬(tokSet (normStr b) = ∅ ∨ tokSet (normStr a) = ∅) :=
          fun hc => hw (or_comm.mp hc)
        rw [if_neg hw, if_neg hw']
        rw [jaccardQ_comm, containQ_comm _ _ h1 h2]

/-- C3 amended, witness at a duplicate-free pair. -/
theorem claim3_symmetry_witness :
    nameSimilarity "a b" "b c" = nameSimilarity "b c" "a b" :=
  claim3_symmetry_amended "a b" "b c" (by decide) (by decide)

end LoanVerify
